import Mathlib

/-!
Hurlex-II virtual file system: the declarations of `src/include/vfs.h`

The repository file is a C header.  It holds constants, structure layouts,
operation tables (structures of function pointers) and function prototypes.
The development below embeds

* the constants as natural numbers,
* the C types that occur in the header as the data type `CType`,
* every structure and every prototype of the header as a table over `CType`,
* the integer conversions between the fixed-width fields as `% 2 ^ w`,

and proves the properties of the specification against these tables.
-/

namespace Vfs

/-! ## Constants -/

/-- Type tag of the root file system: `#define ROOTFS_T 0xA0`. -/
def ROOTFS_T : Nat := 0xA0

/-- Type tag of the simple file system: `#define SFS_T 0xAA`. -/
def SFS_T : Nat := 0xAA

/-- Directory bit of `inode.i_type`: `#define S_DIR 0x1`. -/
def S_DIR : Nat := 0x1

/-- Regular file bit of `inode.i_type`: `#define S_FILE 0x2`. -/
def S_FILE : Nat := 0x2

/-- Longest file name: `#define MAX_FILE_NAME 128`. -/
def MAX_FILE_NAME : Nat := 128

/-- Longest path, file name included: `#define MAX_PATH 1024`. -/
def MAX_PATH : Nat := 1024

/-! ## C types of the header -/

/-- The C types that occur in `vfs.h`.  `named` stands for a type name that
another header defines (`spinlock_t`, `atomic_t`, `time_t`, `block_dev_t`). -/
inductive CType where
  | void
  | char
  | int
  | bool
  | uint8
  | uint16
  | uint32
  | named (name : String)
  | struct (tag : String)
  | const (t : CType)
  | ptr (t : CType)
  | array (t : CType) (len : Nat)
  deriving DecidableEq, Repr

/-- Signature of a function or of a function pointer: result type and the
parameter types in order.  An empty list is the C parameter list `(void)`. -/
structure FnSig where
  ret : CType
  params : List CType
  deriving DecidableEq, Repr

/-- Type of a structure member: a data member or a pointer to a function. -/
inductive MemberType where
  | data (t : CType)
  | fnptr (sig : FnSig)
  deriving DecidableEq, Repr

/-- One member of a structure. -/
structure Member where
  name : String
  type : MemberType
  deriving DecidableEq, Repr

/-- One structure definition. -/
structure StructDecl where
  tag : String
  members : List Member
  deriving DecidableEq, Repr

/-- One function prototype. -/
structure FnDecl where
  name : String
  sig : FnSig
  deriving DecidableEq, Repr

/-- Pointer to a structure, `struct tag *`. -/
def sptr (tag : String) : CType := .ptr (.struct tag)

/-- Data member. -/
def fld (name : String) (t : CType) : Member := ⟨name, .data t⟩

/-- Function pointer member `ret (*name)(params)`. -/
def fnp (name : String) (ret : CType) (params : List CType) : Member :=
  ⟨name, .fnptr ⟨ret, params⟩⟩

/-! ## The structures of the header, member by member -/

/-- Layout of `struct filesystem` (vfs.h lines 39-45). -/
def struct_filesystem : StructDecl :=
  { tag := "filesystem"
    members :=
      [ fld "name" (.ptr (.const .char)),
        fld "type" .uint8,
        fnp "read_super" (sptr "super_block") [sptr "super_block"],
        fld "fs_supers" (.struct "list_head"),
        fld "next" (sptr "filesystem") ] }

/-- Layout of `struct super_block` (vfs.h lines 47-57). -/
def struct_super_block : StructDecl :=
  { tag := "super_block"
    members :=
      [ fld "s_list" (.struct "list_head"),
        fld "bdev" (.ptr (.named "block_dev_t")),
        fld "s_type" .uint16,
        fld "s_inode_count" .uint32,
        fld "s_block_count" .uint32,
        fld "s_block_size" .uint32,
        fld "s_max_file" .uint32,
        fld "s_root" (sptr "dentry"),
        fld "s_ops" (sptr "super_block_ops") ] }

/-- Layout of `struct super_block_ops` (vfs.h lines 59-65). -/
def struct_super_block_ops : StructDecl :=
  { tag := "super_block_ops"
    members :=
      [ fnp "alloc_inode" (sptr "inode") [sptr "super_block"],
        fnp "destroy_inode" .void [sptr "inode"],
        fnp "write_super" .void [sptr "super_block"],
        fnp "sync_fs" .int [sptr "super_block"],
        fnp "delete_inode" .void [sptr "inode"] ] }

/-- Layout of `struct inode` (vfs.h lines 70-83). -/
def struct_inode : StructDecl :=
  { tag := "inode"
    members :=
      [ fld "i_lock" (.named "spinlock_t"),
        fld "i_count" (.named "atomic_t"),
        fld "i_sb" (sptr "super_block"),
        fld "i_list" (.struct "list_head"),
        fld "i_type" .uint32,
        fld "i_ino" .uint32,
        fld "i_atime" (.named "time_t"),
        fld "i_mtime" (.named "time_t"),
        fld "i_ctime" (.named "time_t"),
        fld "i_size" .uint32,
        fld "i_blocks" .uint32,
        fld "i_bytes" .uint32 ] }

/-- Layout of `struct inode_ops` (vfs.h lines 86-93). -/
def struct_inode_ops : StructDecl :=
  { tag := "inode_ops"
    members :=
      [ fnp "create" .int [sptr "inode", sptr "dentry"],
        fnp "rm" .int [sptr "inode", sptr "dentry"],
        fnp "mkdir" .int [sptr "inode", sptr "dentry"],
        fnp "rmdir" .int [sptr "inode", sptr "dentry"],
        fnp "rename" .int [sptr "inode", sptr "dentry", sptr "inode", sptr "dentry"] ] }

/-- Layout of `struct dentry` (vfs.h lines 98-110). -/
def struct_dentry : StructDecl :=
  { tag := "dentry"
    members :=
      [ fld "d_count" (.named "atomic_t"),
        fld "d_lock" (.named "spinlock_t"),
        fld "d_name" (.array .char (MAX_FILE_NAME + 1)),
        fld "d_status" .uint32,
        fld "d_parent" (sptr "dentry"),
        fld "d_brother" (.struct "list_head"),
        fld "d_subdirs" (.struct "list_head"),
        fld "is_mounted" .bool,
        fld "d_sb" (sptr "super_block"),
        fld "d_inode" (sptr "inode"),
        fld "d_ops" (sptr "dentry_ops") ] }

/-- Layout of `struct dentry_ops` (vfs.h lines 112-114). -/
def struct_dentry_ops : StructDecl :=
  { tag := "dentry_ops"
    members := [ fnp "del" .int [sptr "dentry"] ] }

/-- Layout of `struct file` (vfs.h lines 119-127). -/
def struct_file : StructDecl :=
  { tag := "file"
    members :=
      [ fld "f_count" (.named "atomic_t"),
        fld "f_lock" (.named "spinlock_t"),
        fld "f_path" (.array .char (MAX_PATH + 1)),
        fld "f_dentry" (sptr "dentry"),
        fld "f_openflag" .uint32,
        fld "f_pos" .uint32,
        fld "f_ops" (sptr "file_ops") ] }

/-- Layout of `struct file_ops` (vfs.h lines 129-135). -/
def struct_file_ops : StructDecl :=
  { tag := "file_ops"
    members :=
      [ fnp "read" .int [sptr "file", .ptr .char, .uint32],
        fnp "write" .int [sptr "file", .ptr (.const .char), .uint32],
        fnp "open" .int [sptr "inode", sptr "file"],
        fnp "flush" .int [sptr "file"],
        fnp "close" .int [sptr "inode", sptr "file"] ] }

/-- Layout of `struct vfsmount` (vfs.h lines 137-143). -/
def struct_vfsmount : StructDecl :=
  { tag := "vfsmount"
    members :=
      [ fld "mnt_devname" (.ptr (.const .char)),
        fld "mnt_sb" (sptr "super_block"),
        fld "mnt_root" (sptr "dentry"),
        fld "mnt_mountpoint" (sptr "dentry"),
        fld "mnt_parent" (sptr "vfsmount") ] }

/-- Every structure the header defines, in source order. -/
def structs : List StructDecl :=
  [ struct_filesystem, struct_super_block, struct_super_block_ops, struct_inode,
    struct_inode_ops, struct_dentry, struct_dentry_ops, struct_file, struct_file_ops,
    struct_vfsmount ]

/-- The structure tags the header only declares ahead (vfs.h lines 30-37). -/
def forward_decls : List String :=
  [ "super_block", "super_ops", "inode", "inode_ops", "dentry", "dentry_ops", "file",
    "file_ops" ]

/-! ## The prototypes of the header -/

/-- Prototype `void vfs_init(void)`. -/
def proto_vfs_init : FnDecl := ⟨"vfs_init", .void, []⟩

/-- Prototype `int add_filesystem(struct filesystem *fs)`. -/
def proto_add_filesystem : FnDecl := ⟨"add_filesystem", .int, [sptr "filesystem"]⟩

/-- The eight acquire prototypes (vfs.h lines 157-179), in source order. -/
def alloc_protos : List FnDecl :=
  [ ⟨"alloc_super_block", sptr "super_block", []⟩,
    ⟨"alloc_super_block_ops", sptr "super_block_ops", []⟩,
    ⟨"alloc_inode", sptr "inode", []⟩,
    ⟨"alloc_inode_ops", sptr "inode_ops", []⟩,
    ⟨"alloc_dentry", sptr "dentry", []⟩,
    ⟨"alloc_dentry_ops", sptr "dentry_ops", []⟩,
    ⟨"alloc_file", sptr "file", []⟩,
    ⟨"alloc_file_ops", sptr "file_ops", []⟩ ]

/-- The eight release prototypes (vfs.h lines 181-203), in source order. -/
def free_protos : List FnDecl :=
  [ ⟨"free_super_block", .void, [sptr "super_block"]⟩,
    ⟨"free_super_block_ops", .void, [sptr "super_ops"]⟩,
    ⟨"free_inode", .void, [sptr "inode"]⟩,
    ⟨"free_inode_ops", .void, [sptr "inode_ops"]⟩,
    ⟨"free_dentry", .void, [sptr "dentry"]⟩,
    ⟨"free_dentry_ops", .void, [sptr "dentry_ops"]⟩,
    ⟨"free_file", .void, [sptr "file"]⟩,
    ⟨"free_file_ops", .void, [sptr "file_ops"]⟩ ]

/-- Every prototype of the header. -/
def protos : List FnDecl :=
  proto_vfs_init :: proto_add_filesystem :: (alloc_protos ++ free_protos)

/-! ## Queries over the tables -/

/-- Type of the member called `n`, when the structure has one. -/
def StructDecl.member? (d : StructDecl) (n : String) : Option MemberType :=
  (d.members.find? (fun m => m.name == n)).map (fun m => m.type)

/-- Function pointer members of a structure, as named signatures. -/
def StructDecl.ops (d : StructDecl) : List FnDecl :=
  d.members.filterMap (fun m =>
    match m.type with
    | .fnptr sig => some ⟨m.name, sig⟩
    | .data _ => none)

/-- Prototype called `n`, when the header has one. -/
def findProto (n : String) : Option FnDecl :=
  protos.find? (fun p => p.name == n)

/-- Structure of the header with the given tag, when it is defined there. -/
def lookupStruct (tag : String) : Option StructDecl :=
  structs.find? (fun d => d.tag == tag)

/-- Length of an array member, 0 for a member that is no array. -/
def MemberType.arrayLen : MemberType → Nat
  | .data (.array _ len) => len
  | _ => 0

/-- Capacity in chars of the array member `n` of a structure. -/
def StructDecl.capacity (d : StructDecl) (n : String) : Nat :=
  match d.member? n with
  | some t => t.arrayLen
  | none => 0

/-- A C string of `len` chars needs `len + 1` chars of storage, the last one
for the terminating NUL; it fits a buffer of `cap` chars when that is at most
`cap`. -/
def fitsWithNul (len cap : Nat) : Prop := len + 1 ≤ cap

instance (len cap : Nat) : Decidable (fitsWithNul len cap) := by
  unfold fitsWithNul; infer_instance

/-- Result type that carries a status code: `int`. -/
def CType.isStatus : CType → Bool
  | .int => true
  | _ => false

/-- Result type that carries an object: a pointer to a structure. -/
def CType.isObject : CType → Bool
  | .ptr (.struct _) => true
  | _ => false

/-- The operations of the four driver operation tables, in source order. -/
def driver_ops : List FnDecl :=
  struct_super_block_ops.ops ++ struct_inode_ops.ops ++ struct_dentry_ops.ops ++
    struct_file_ops.ops

/-- The eight object kinds of the allocator prototypes: the suffix shared by
`alloc_<kind>` and `free_<kind>`. -/
def object_kinds : List String :=
  [ "super_block", "super_block_ops", "inode", "inode_ops", "dentry", "dentry_ops", "file",
    "file_ops" ]

/-- Prototype `alloc_<kind>`. -/
def alloc_of (kind : String) : Option FnDecl := findProto ("alloc_" ++ kind)

/-- Prototype `free_<kind>`. -/
def free_of (kind : String) : Option FnDecl := findProto ("free_" ++ kind)

/-- The release prototype of a kind takes exactly one parameter, of the type
the acquire prototype of the kind returns (and the acquire takes none). -/
def releaseMatchesAcquire (kind : String) : Bool :=
  match alloc_of kind, free_of kind with
  | some a, some f => a.sig.params == [] && f.sig.params == [a.sig.ret]
  | _, _ => false

/-! ## Which structures a structure refers to -/

/-- Structure tags that occur in a type. -/
def CType.tags : CType → List String
  | .struct tag => [tag]
  | .const t => t.tags
  | .ptr t => t.tags
  | .array t _ => t.tags
  | _ => []

/-- Structure tags that occur in a member: in its type, or in the result and
parameter types of the function it points to. -/
def MemberType.tags : MemberType → List String
  | .data t => t.tags
  | .fnptr sig => sig.ret.tags ++ (sig.params.map CType.tags).flatten

/-- Structure tags a structure mentions in any of its members. -/
def StructDecl.refs (d : StructDecl) : List String :=
  (d.members.map (fun m => m.type.tags)).flatten

/-- Tags mentioned by the structure with tag `t`; none when the header does
not define it. -/
def refsOf (t : String) : List String :=
  match lookupStruct t with
  | some d => d.refs
  | none => []

/-- One round of following references from a set of tags. -/
def expand (seen : List String) : List String :=
  (seen ++ (seen.map refsOf).flatten).eraseDups

/-- Tags reachable from `start` in at most `fuel` rounds. -/
def reach : Nat → List String → List String
  | 0, seen => seen
  | fuel + 1, seen => reach fuel (expand seen)

/-- Tags reachable from the structure `start` through the declarations of the
header.  Ten rounds, one per structure of the header, reach the closure. -/
def reachable (start : String) : List String := reach structs.length [start]

/-- Tags of the structures to which a structure holds a pointer as a data
member. -/
def StructDecl.pointees (d : StructDecl) : List String :=
  d.members.filterMap (fun m =>
    match m.type with
    | .data (.ptr (.struct tag)) => some tag
    | _ => none)

/-- Names of the types of other headers that occur in a type, under any
nesting of `const`, pointer and array. -/
def CType.typeNames : CType → List String
  | .named name => [name]
  | .const t => t.typeNames
  | .ptr t => t.typeNames
  | .array t _ => t.typeNames
  | _ => []

/-- Names of the types of other headers that occur in a signature, in its
result type or in any parameter type. -/
def FnSig.typeNames (sig : FnSig) : List String :=
  sig.ret.typeNames ++ (sig.params.map CType.typeNames).flatten

/-! ## Integer fields -/

/-- Width in bits of the fixed-width integer types. -/
def CType.bits : CType → Nat
  | .uint8 => 8
  | .uint16 => 16
  | .uint32 => 32
  | _ => 0

/-- Width in bits of the integer member `n` of a structure. -/
def StructDecl.bits (d : StructDecl) (n : String) : Nat :=
  match d.member? n with
  | some (.data t) => t.bits
  | _ => 0

/-- Conversion of an integer value to an unsigned type of `w` bits. -/
def toUnsigned (w : Nat) (v : Nat) : Nat := v % 2 ^ w

/-- Conversion to the type of `filesystem.type`. -/
def to_fs_type (v : Nat) : Nat := toUnsigned (struct_filesystem.bits "type") v

/-- Conversion to the type of `super_block.s_type`. -/
def to_s_type (v : Nat) : Nat := toUnsigned (struct_super_block.bits "s_type") v

/-- Conversion to the type of `inode.i_type`. -/
def to_i_type (v : Nat) : Nat := toUnsigned (struct_inode.bits "i_type") v

/-- The test `(v & flag) != 0` on an `i_type` value. -/
def hasFlag (v flag : Nat) : Bool := (v &&& flag) != 0

/-! ## The registry of file system types -/

/-- Error kinds named by the specification (section 7). -/
inductive VfsError where
  | DuplicateType
  | NotFound
  | NameTooLong
  | AlreadyMounted
  | Busy
  | AllocFailed
  | IOError
  | PermissionDenied
  | IsADirectory
  | NotADirectory
  | ReadSuperFailed
  deriving DecidableEq, Repr

/-- Value of a `struct super_block`.  Pointers to other objects are handles
(addresses); `s_list` is the list linkage and has no value of its own. -/
structure super_block where
  bdev : Nat
  s_type : Nat
  s_inode_count : Nat
  s_block_count : Nat
  s_block_size : Nat
  s_max_file : Nat
  s_root : Nat
  s_ops : Nat
  deriving DecidableEq, Repr

/-- Value of a `struct filesystem`.  `read_super` has the type of the member,
super_block pointer to super_block pointer, with `none` for a null result;
`fs_supers` is the list its list head links; `next` is the linkage of the
registry, which is the order of the list `file_systems` below. -/
structure filesystem where
  name : String
  type : Nat
  read_super : super_block → Option super_block
  fs_supers : List super_block

/-- Modelled from the spec: the body of `add_filesystem`, of which vfs.h has
only the prototype `int add_filesystem(struct filesystem *fs)` and the registry
head `extern struct filesystem *file_systems`.  Section 4.1: register fails with
`DuplicateType` if the name or type tag already exists; otherwise links the type
into the global registry (insertion order irrelevant).  The registry is passed
in and returned next to the result. -/
def add_filesystem (fs : filesystem) (file_systems : List filesystem) :
    Except VfsError Unit × List filesystem :=
  if file_systems.any (fun g => g.name == fs.name || g.type == fs.type) then
    (.error .DuplicateType, file_systems)
  else
    (.ok (), fs :: file_systems)

/-- A root file system type: name `rootfs`, tag `ROOTFS_T`. -/
def sample_rootfs : filesystem :=
  { name := "rootfs", type := ROOTFS_T, read_super := fun sb => some sb, fs_supers := [] }

/-- A simple file system type: name `sfs`, tag `SFS_T`. -/
def sample_sfs : filesystem :=
  { name := "sfs", type := SFS_T, read_super := fun sb => some sb, fs_supers := [] }

/-- A type with a name of its own and the tag of the root file system. -/
def sample_clash : filesystem :=
  { name := "ramfs", type := ROOTFS_T, read_super := fun _ => none, fs_supers := [] }

/-! ## Theorems -/

/-- C1: registering a filesystem whose name or type tag equals that of a member
of the registry fails with `DuplicateType` and returns the registry as it was;
registering any other filesystem succeeds, the filesystem is then a member of
the registry, and so is every earlier member. -/
theorem add_filesystem_registers (fs : filesystem) (reg : List filesystem) :
    ((∃ g ∈ reg, g.name = fs.name ∨ g.type = fs.type) →
        add_filesystem fs reg = (.error .DuplicateType, reg)) ∧
    ((∀ g ∈ reg, g.name ≠ fs.name ∧ g.type ≠ fs.type) →
        (add_filesystem fs reg).1 = .ok () ∧ fs ∈ (add_filesystem fs reg).2 ∧
          ∀ g ∈ reg, g ∈ (add_filesystem fs reg).2) := by
  constructor
  · rintro ⟨g, hg, hdup⟩
    have hany : reg.any (fun g => g.name == fs.name || g.type == fs.type) = true := by
      rw [List.any_eq_true]
      exact ⟨g, hg, by simpa using hdup⟩
    simp [add_filesystem, hany]
  · intro hfresh
    have hany : reg.any (fun g => g.name == fs.name || g.type == fs.type) = false := by
      rw [Bool.eq_false_iff]
      intro h
      rw [List.any_eq_true] at h
      obtain ⟨g, hg, hdup⟩ := h
      have hne := hfresh g hg
      simp at hdup
      rcases hdup with h1 | h1
      · exact hne.1 h1
      · exact hne.2 h1
    refine ⟨?_, ?_, ?_⟩
    · simp [add_filesystem, hany]
    · simp [add_filesystem, hany]
    · intro g hg
      simp [add_filesystem, hany, hg]

/-- C1 at concrete inputs: with `rootfs` registered, a type with the tag
`ROOTFS_T` is refused and the registry is unchanged, and `sfs` is added. -/
theorem add_filesystem_registers_witness :
    add_filesystem sample_clash [sample_rootfs] = (.error .DuplicateType, [sample_rootfs]) ∧
    (add_filesystem sample_sfs [sample_rootfs]).1 = .ok () ∧
    sample_sfs ∈ (add_filesystem sample_sfs [sample_rootfs]).2 :=
  ⟨(add_filesystem_registers sample_clash [sample_rootfs]).1
      ⟨sample_rootfs, List.mem_singleton.2 rfl, Or.inr rfl⟩,
    ((add_filesystem_registers sample_sfs [sample_rootfs]).2 (by
      intro g hg
      rw [List.mem_singleton.1 hg]
      exact ⟨by decide, by decide⟩)).1,
    ((add_filesystem_registers sample_sfs [sample_rootfs]).2 (by
      intro g hg
      rw [List.mem_singleton.1 hg]
      exact ⟨by decide, by decide⟩)).2.1⟩

/-- C2 as stated fails: the member `read_super` of `struct filesystem` is a
function pointer none of whose parameters is a block device, neither a
`block_dev_t` nor a pointer to one. -/
theorem read_super_takes_no_block_device :
    ¬ ∃ sig, struct_filesystem.member? "read_super" = some (.fnptr sig) ∧
        ∃ p ∈ sig.params, p = .named "block_dev_t" ∨ p = .ptr (.named "block_dev_t") := by
  rintro ⟨sig, hsig, p, hp, hblock⟩
  have hmem : struct_filesystem.member? "read_super" =
      some (.fnptr ⟨sptr "super_block", [sptr "super_block"]⟩) := by decide
  rw [hmem] at hsig
  injection hsig with hsig
  injection hsig with hsig
  subst hsig
  rw [List.mem_singleton] at hp
  subst hp
  rcases hblock with h | h <;> exact absurd h (by decide)

/-- C2 amended: `read_super` takes one argument, a pointer to a super_block,
and its result is a pointer to a super_block; `block_dev_t` occurs nowhere in
its signature, under any nesting of `const`, pointer or array, so no parameter
is a block device; the structure it is passed, `struct super_block`, has the
block device as its member `bdev`, a pointer to `block_dev_t`. -/
theorem read_super_signature :
    struct_filesystem.member? "read_super" =
      some (.fnptr ⟨sptr "super_block", [sptr "super_block"]⟩) ∧
    (∀ sig, struct_filesystem.member? "read_super" = some (.fnptr sig) →
      sig.params = [sptr "super_block"] ∧ sig.ret = sptr "super_block" ∧
        "block_dev_t" ∉ sig.typeNames) ∧
    lookupStruct "super_block" = some struct_super_block ∧
    struct_super_block.member? "bdev" = some (.data (.ptr (.named "block_dev_t"))) := by
  have hmem : struct_filesystem.member? "read_super" =
      some (.fnptr ⟨sptr "super_block", [sptr "super_block"]⟩) := by decide
  refine ⟨hmem, ?_, by decide, by decide⟩
  intro sig hsig
  rw [hmem] at hsig
  injection hsig with hsig
  injection hsig with hsig
  subst hsig
  exact ⟨rfl, rfl, by decide⟩

/-- C2 amended, at the signature the header gives `read_super`. -/
theorem read_super_signature_witness :
    sptr "super_block" ≠ .ptr (.named "block_dev_t") ∧
    "block_dev_t" ∉ FnSig.typeNames ⟨sptr "super_block", [sptr "super_block"]⟩ :=
  ⟨by decide,
    ((read_super_signature).2.1 ⟨sptr "super_block", [sptr "super_block"]⟩
      (read_super_signature).1).2.2⟩

/-- C3 as stated fails: not every operation of the driver operation tables
has a status code or an object as its result. -/
theorem driver_ops_not_all_report :
    ¬ ∀ op ∈ driver_ops, op.sig.ret.isStatus = true ∨ op.sig.ret.isObject = true := by
  decide

/-- C3 amended: the driver operation tables hold the sixteen operations named
by the claim; `destroy_inode`, `write_super` and `delete_inode` have the result
type `void`; every other operation has the result type `int` (a status code)
or pointer to a structure (the requested object): `alloc_inode` returns a
pointer to an inode and the remaining twelve return `int`. -/
theorem driver_ops_results :
    driver_ops.map (fun op => op.name) =
      [ "alloc_inode", "destroy_inode", "write_super", "sync_fs", "delete_inode",
        "create", "rm", "mkdir", "rmdir", "rename", "del",
        "read", "write", "open", "flush", "close" ] ∧
    (∀ op ∈ driver_ops, op.name ∈ ["destroy_inode", "write_super", "delete_inode"] →
      op.sig.ret = .void) ∧
    (∀ op ∈ driver_ops, op.name ∉ ["destroy_inode", "write_super", "delete_inode"] →
      op.sig.ret.isStatus = true ∨ op.sig.ret.isObject = true) ∧
    (∀ op ∈ driver_ops, op.name = "alloc_inode" → op.sig.ret = sptr "inode") ∧
    (∀ op ∈ driver_ops,
      op.name ∉ ["alloc_inode", "destroy_inode", "write_super", "delete_inode"] →
        op.sig.ret = .int) := by
  decide

/-- C4 at the kind `super_block_ops`: `alloc_super_block_ops` returns a pointer
to `struct super_block_ops` and `free_super_block_ops` takes a pointer to
`struct super_ops`, a different type, which the header declares ahead and
never defines; for the seven other kinds the release prototype takes exactly
the type the acquire prototype returns. -/
theorem free_super_block_ops_takes_super_ops :
    (alloc_of "super_block_ops").map (fun p => p.sig.ret) = some (sptr "super_block_ops") ∧
    (free_of "super_block_ops").map (fun p => p.sig.params) = some [sptr "super_ops"] ∧
    sptr "super_ops" ≠ sptr "super_block_ops" ∧
    releaseMatchesAcquire "super_block_ops" = false ∧
    (∀ kind ∈ object_kinds, kind ≠ "super_block_ops" → releaseMatchesAcquire kind = true) ∧
    (∀ kind ∈ object_kinds, (alloc_of kind).isSome = true ∧ (free_of kind).isSome = true) ∧
    "super_ops" ∈ forward_decls ∧ lookupStruct "super_ops" = none ∧
    "super_block_ops" ∉ forward_decls ∧
    lookupStruct "super_block_ops" = some struct_super_block_ops := by
  decide

/-- C5 on the code: no member of `struct inode` mentions `struct inode_ops`;
`inode_ops` is not among the structures reachable from `inode` through the
declarations of the header (the listed set is closed under following
references); no structure of the header mentions `inode_ops` at all, while
`super_block`, `dentry` and `file` each hold a pointer to their own operation
table; and the five operations of `inode_ops` take the inode as first
parameter. -/
theorem inode_holds_no_inode_ops :
    (∀ m ∈ struct_inode.members, "inode_ops" ∉ m.type.tags) ∧
    reachable "inode" =
      ["inode", "super_block", "list_head", "dentry", "super_block_ops", "dentry_ops"] ∧
    expand (reachable "inode") = reachable "inode" ∧
    "inode_ops" ∉ reachable "inode" ∧
    (∀ d ∈ structs, "inode_ops" ∉ d.refs) ∧
    struct_super_block.member? "s_ops" = some (.data (sptr "super_block_ops")) ∧
    struct_dentry.member? "d_ops" = some (.data (sptr "dentry_ops")) ∧
    struct_file.member? "f_ops" = some (.data (sptr "file_ops")) ∧
    struct_inode_ops.ops.map (fun op => op.name) = ["create", "rm", "mkdir", "rmdir", "rename"] ∧
    (∀ op ∈ struct_inode_ops.ops, op.sig.params.head? = some (sptr "inode")) := by
  decide

/-- C6: `MAX_FILE_NAME` is 128 and `d_name` is an array of `MAX_FILE_NAME + 1`
= 129 chars; a name of length `n` fits in `d_name` with its terminating NUL if
and only if `n ≤ MAX_FILE_NAME`, so the names longer than `MAX_FILE_NAME` are
exactly the names that do not fit. -/
theorem d_name_fits_iff (n : Nat) :
    MAX_FILE_NAME = 128 ∧
    struct_dentry.member? "d_name" = some (.data (.array .char (MAX_FILE_NAME + 1))) ∧
    struct_dentry.capacity "d_name" = 129 ∧
    (fitsWithNul n (struct_dentry.capacity "d_name") ↔ n ≤ MAX_FILE_NAME) ∧
    (MAX_FILE_NAME < n ↔ ¬ fitsWithNul n (struct_dentry.capacity "d_name")) := by
  have hcap : struct_dentry.capacity "d_name" = 129 := by decide
  refine ⟨rfl, by decide, hcap, ?_, ?_⟩
  · rw [hcap]; unfold fitsWithNul MAX_FILE_NAME; omega
  · rw [hcap]; unfold fitsWithNul MAX_FILE_NAME; omega

/-- C7: `MAX_PATH` is 1024 and `f_path` is an array of `MAX_PATH + 1` = 1025
chars; a path of length `n` fits in `f_path` with its terminating NUL if and
only if `n ≤ MAX_PATH`; `MAX_FILE_NAME ≤ MAX_PATH`, and every name of at most
`MAX_FILE_NAME` chars is a path that fits. -/
theorem f_path_fits_iff (n : Nat) :
    MAX_PATH = 1024 ∧
    struct_file.member? "f_path" = some (.data (.array .char (MAX_PATH + 1))) ∧
    struct_file.capacity "f_path" = 1025 ∧
    (fitsWithNul n (struct_file.capacity "f_path") ↔ n ≤ MAX_PATH) ∧
    MAX_FILE_NAME ≤ MAX_PATH ∧
    fitsWithNul MAX_FILE_NAME (struct_file.capacity "f_path") ∧
    (n ≤ MAX_FILE_NAME → fitsWithNul n (struct_file.capacity "f_path")) := by
  have hcap : struct_file.capacity "f_path" = 1025 := by decide
  refine ⟨rfl, by decide, hcap, ?_, by decide, ?_, ?_⟩
  · rw [hcap]; unfold fitsWithNul MAX_PATH; omega
  · rw [hcap]; unfold fitsWithNul MAX_FILE_NAME; omega
  · rw [hcap]; unfold fitsWithNul MAX_FILE_NAME; omega

/-- Setting the bit `S_FILE` leaves the bit `S_DIR` of a value as it was. -/
theorem and_dir_or_file (v : Nat) : (v ||| S_FILE) &&& S_DIR = v &&& S_DIR := by
  apply Nat.eq_of_testBit_eq
  intro i
  simp only [Nat.testBit_and, Nat.testBit_or, S_DIR, S_FILE]
  rcases i with _ | _ | i <;> simp [Nat.testBit_succ]

/-- Setting the bit `S_DIR` leaves the bit `S_FILE` of a value as it was. -/
theorem and_file_or_dir (v : Nat) : (v ||| S_DIR) &&& S_FILE = v &&& S_FILE := by
  apply Nat.eq_of_testBit_eq
  intro i
  simp only [Nat.testBit_and, Nat.testBit_or, S_DIR, S_FILE]
  rcases i with _ | _ | i <;> simp [Nat.testBit_succ]

/-- C8: `S_DIR` and `S_FILE` are non-zero, different, share no bit and are
values of the 32-bit `i_type`; the tests `(v & S_DIR) != 0` and
`(v & S_FILE) != 0` are independent: each of the four outcomes occurs at an
`i_type` value, and setting one bit in any value `v` leaves the other test
as it was; a value equal to `S_DIR` is not equal to `S_FILE`, and passes the
directory test only, as `S_FILE` passes the file test only. -/
theorem s_dir_s_file_independent (v : Nat) :
    S_DIR ≠ 0 ∧ S_FILE ≠ 0 ∧ S_DIR ≠ S_FILE ∧ S_DIR &&& S_FILE = 0 ∧
    struct_inode.bits "i_type" = 32 ∧ to_i_type S_DIR = S_DIR ∧ to_i_type S_FILE = S_FILE ∧
    (∀ a b : Bool, ∃ w, w < 2 ^ 32 ∧ hasFlag w S_DIR = a ∧ hasFlag w S_FILE = b) ∧
    hasFlag (v ||| S_FILE) S_DIR = hasFlag v S_DIR ∧
    hasFlag (v ||| S_DIR) S_FILE = hasFlag v S_FILE ∧
    (v = S_DIR → v ≠ S_FILE) ∧
    hasFlag S_DIR S_DIR = true ∧ hasFlag S_DIR S_FILE = false ∧
    hasFlag S_FILE S_FILE = true ∧ hasFlag S_FILE S_DIR = false := by
  refine ⟨by decide, by decide, by decide, by decide, by decide, by decide, by decide,
    ?_, ?_, ?_, ?_, by decide, by decide, by decide, by decide⟩
  · intro a b
    cases a <;> cases b
    · exact ⟨0, by decide, by decide, by decide⟩
    · exact ⟨2, by decide, by decide, by decide⟩
    · exact ⟨1, by decide, by decide, by decide⟩
    · exact ⟨3, by decide, by decide, by decide⟩
  · unfold hasFlag; rw [and_dir_or_file]
  · unfold hasFlag; rw [and_file_or_dir]
  · intro h; rw [h]; decide

/-- C9: `ROOTFS_T` is 0xA0 and `SFS_T` is 0xAA; they differ, both are below
2 ^ 8, so the 8-bit member `filesystem.type` stores each unchanged, and the
two stored tags are distinct. -/
theorem builtin_tags_distinct :
    ROOTFS_T = 0xA0 ∧ SFS_T = 0xAA ∧ ROOTFS_T ≠ SFS_T ∧
    struct_filesystem.member? "type" = some (.data .uint8) ∧
    struct_filesystem.bits "type" = 8 ∧
    ROOTFS_T < 2 ^ 8 ∧ SFS_T < 2 ^ 8 ∧
    to_fs_type ROOTFS_T = ROOTFS_T ∧ to_fs_type SFS_T = SFS_T ∧
    [to_fs_type ROOTFS_T, to_fs_type SFS_T].Nodup := by
  decide

/-- C10: `filesystem.type` has 8 bits and `super_block.s_type` has 16; for
8-bit tags `t1` and `t2`, converting `t1` to the type of `s_type` and back to
the type of `filesystem.type` gives `t1`, the converted tags are equal if and
only if `t1 = t2`, and every `s_type` value from 256 on is the conversion of
no 8-bit tag (there is such a value). -/
theorem fs_type_widening_lossless (t1 t2 : Nat) (h1 : t1 < 2 ^ 8) (h2 : t2 < 2 ^ 8) :
    struct_filesystem.bits "type" = 8 ∧ struct_super_block.bits "s_type" = 16 ∧
    to_s_type t1 = t1 ∧
    to_fs_type (to_s_type t1) = t1 ∧
    (to_s_type t1 = to_s_type t2 ↔ t1 = t2) ∧
    (∀ s, 2 ^ 8 ≤ s → s < 2 ^ 16 → to_s_type s = s ∧ ∀ t, t < 2 ^ 8 → to_s_type t ≠ s) ∧
    (∃ s, 2 ^ 8 ≤ s ∧ s < 2 ^ 16) := by
  have hb8 : struct_filesystem.bits "type" = 8 := by decide
  have hb16 : struct_super_block.bits "s_type" = 16 := by decide
  have hs : ∀ t, t < 2 ^ 16 → to_s_type t = t := by
    intro t ht
    unfold to_s_type toUnsigned
    rw [hb16]
    exact Nat.mod_eq_of_lt ht
  have hf : ∀ t, t < 2 ^ 8 → to_fs_type t = t := by
    intro t ht
    unfold to_fs_type toUnsigned
    rw [hb8]
    exact Nat.mod_eq_of_lt ht
  have hw1 : to_s_type t1 = t1 := hs t1 (by omega)
  have hw2 : to_s_type t2 = t2 := hs t2 (by omega)
  refine ⟨hb8, hb16, hw1, ?_, ?_, ?_, ⟨256, by decide, by decide⟩⟩
  · rw [hw1]; exact hf t1 h1
  · rw [hw1, hw2]
  · intro s hlo hhi
    refine ⟨hs s hhi, ?_⟩
    intro t ht
    rw [hs t (by omega)]
    omega

/-- C10 at the two built-in tags. -/
theorem fs_type_widening_lossless_witness :
    ROOTFS_T < 2 ^ 8 ∧ SFS_T < 2 ^ 8 ∧
    to_fs_type (to_s_type ROOTFS_T) = ROOTFS_T ∧
    (to_s_type ROOTFS_T = to_s_type SFS_T ↔ ROOTFS_T = SFS_T) :=
  ⟨by decide, by decide,
    (fs_type_widening_lossless ROOTFS_T SFS_T (by decide) (by decide)).2.2.2.1,
    (fs_type_widening_lossless ROOTFS_T SFS_T (by decide) (by decide)).2.2.2.2.1⟩

end Vfs
